import Mathlib

/-!
Verification of the sale-recording and invoice-computation logic of
`src/app.py` (a point-of-sale / invoicing tool backed by SQLite).

Shallow embedding conventions:
* Python strings are modelled as `List Char` (`Str`); `"…".data` builds one.
* SQLite `REAL` money columns are modelled as `ℚ`; `INTEGER` as `Nat`.
* The database is an explicit record of the four tables created by `init_db`,
  plus the AUTOINCREMENT counters.
* Each SQL statement is a Lean function; statements that can raise
  `sqlite3.IntegrityError` (CHECK / UNIQUE / FOREIGN KEY, with
  `PRAGMA foreign_keys = ON` as in `database_connection`) return
  `Except Str DB`.
* `database_connection` closes the connection on every exit path; sqlite3
  rolls back the open implicit transaction when a connection is closed
  without `commit()`, so a manager that catches an exception before reaching
  `conn.commit()` leaves the store exactly as it was: modelled by returning
  the original `DB` on the error path.
* Unexpected store-layer faults (disk errors, etc., i.e. the exceptions the
  Python `except Exception` branches catch) are modelled by an explicit
  `fault : Option Str` argument to every manager operation: `some e` means
  the first store call of the operation raises exception `e` before writing
  anything; `none` means the store behaves normally.
* Randomness (`shortuuid` tokens, `random.choices` code suffixes) and the
  current date are inputs.
-/

abbrev Str := List Char

/-- Row of table `productos` (`init_db`): `id` AUTOINCREMENT,
`nombre TEXT UNIQUE`, `precio REAL CHECK(precio > 0)`. -/
structure Producto where
  id : Nat
  nombre : Str
  precio : ℚ
deriving DecidableEq

/-- Row of table `ventas` (`init_db`): `id` AUTOINCREMENT, `fecha TEXT`,
`total REAL CHECK(total >= 0)`, `numero_factura TEXT UNIQUE`,
`descuento REAL DEFAULT 0`, `producto TEXT`. -/
structure Venta where
  id : Nat
  fecha : Str
  total : ℚ
  numero_factura : Str
  descuento : ℚ
  producto : Str
deriving DecidableEq

/-- Row of table `ventas_detalle` (`init_db`): `venta_id` (FK to `ventas`,
ON DELETE CASCADE), `producto_id` (FK to `productos`, ON DELETE SET NULL,
hence `Option`), `cantidad INTEGER CHECK(cantidad > 0)`,
`precio_unitario REAL CHECK(precio_unitario > 0)`,
`descuento_aplicado REAL DEFAULT 0`. -/
structure VentaDetalle where
  venta_id : Nat
  producto_id : Option Nat
  cantidad : Nat
  precio_unitario : ℚ
  descuento_aplicado : ℚ
deriving DecidableEq

/-- Row of table `clientes` (`init_db`): `id` AUTOINCREMENT,
`nombre TEXT NOT NULL`, `cedula TEXT UNIQUE`, `telefono`, `direccion`,
`codigo_descuento TEXT UNIQUE`, `activo BOOLEAN DEFAULT 1`. -/
structure Cliente where
  id : Nat
  nombre : Str
  cedula : Str
  telefono : Str
  direccion : Str
  codigo_descuento : Str
  activo : Bool
deriving DecidableEq

/-- The persistent store `facturacion_capilar.db`: the four tables plus the
AUTOINCREMENT counters for the three tables with an `id` column. -/
structure DB where
  productos : List Producto
  ventas : List Venta
  ventas_detalle : List VentaDetalle
  clientes : List Cliente
  next_producto_id : Nat
  next_venta_id : Nat
  next_cliente_id : Nat
deriving DecidableEq

/-- One entry of `st.session_state.factura['items']` (`pantalla_facturacion`):
keys `producto_id`, `nombre`, `precio`, `cantidad`, `subtotal` are set when
the item is added; the `descuento_total` key may be absent, and
`registrar_venta` reads it with `item.get('descuento_total', 0)` — modelled
as a field defaulting to `0`. -/
structure Item where
  producto_id : Option Nat
  nombre : Str
  precio : ℚ
  cantidad : Nat
  subtotal : ℚ
  descuento_total : ℚ := 0
deriving DecidableEq

/-- The in-memory invoice draft `st.session_state.factura`. -/
structure Factura where
  items : List Item
  descuento : Bool
  codigo_usado : Option Str
  monto_descuento : ℚ
deriving DecidableEq

/-! ## Store layer: the individual SQL statements with SQLite's
CHECK / UNIQUE / FOREIGN KEY semantics. -/

/-- `INSERT INTO productos (nombre, precio) VALUES (?, ?)`:
raises IntegrityError on `CHECK(precio > 0)` or on the UNIQUE `nombre`
constraint; otherwise appends the row with the AUTOINCREMENT id. -/
def insertProductoRow (db : DB) (nombre : Str) (precio : ℚ) : Except Str DB :=
  if precio ≤ 0 then
    .error "CHECK constraint failed: precio > 0".data
  else if db.productos.any (fun p => decide (p.nombre = nombre)) then
    .error "UNIQUE constraint failed: productos.nombre".data
  else
    .ok { db with
          productos := db.productos ++
            [{ id := db.next_producto_id, nombre := nombre, precio := precio }],
          next_producto_id := db.next_producto_id + 1 }

/-- `INSERT INTO ventas (fecha, total, numero_factura, descuento, producto)`:
raises IntegrityError on `CHECK(total >= 0)` or on the UNIQUE
`numero_factura` constraint; otherwise appends the row (the Python code then
reads `c.lastrowid`, which is the AUTOINCREMENT id used here). -/
def insertVentaRow (db : DB) (v : Venta) : Except Str DB :=
  if v.total < 0 then
    .error "CHECK constraint failed: total >= 0".data
  else if db.ventas.any (fun w => decide (w.numero_factura = v.numero_factura)) then
    .error "UNIQUE constraint failed: ventas.numero_factura".data
  else
    .ok { db with ventas := db.ventas ++ [v], next_venta_id := db.next_venta_id + 1 }

/-- `PRAGMA foreign_keys = ON` is set by `database_connection`, so the
`producto_id` foreign key of `ventas_detalle` is enforced; a NULL
(`none`) reference is always admissible (the column has ON DELETE SET NULL). -/
def fkProductoOk (db : DB) : Option Nat → Bool
  | none => true
  | some pid => db.productos.any (fun p => decide (p.id = pid))

/-- `INSERT INTO ventas_detalle (venta_id, producto_id, cantidad,
precio_unitario, descuento_aplicado)`: raises IntegrityError on
`CHECK(cantidad > 0)`, `CHECK(precio_unitario > 0)` or a violated foreign
key; otherwise appends the row. -/
def insertDetalleRow (db : DB) (d : VentaDetalle) : Except Str DB :=
  if d.cantidad = 0 then
    .error "CHECK constraint failed: cantidad > 0".data
  else if d.precio_unitario ≤ 0 then
    .error "CHECK constraint failed: precio_unitario > 0".data
  else if db.ventas.any (fun v => decide (v.id = d.venta_id)) &&
          fkProductoOk db d.producto_id then
    .ok { db with ventas_detalle := db.ventas_detalle ++ [d] }
  else
    .error "FOREIGN KEY constraint failed".data

/-- `INSERT INTO clientes (nombre, cedula, telefono, direccion,
codigo_descuento)`: raises IntegrityError when the UNIQUE `cedula` or
`codigo_descuento` constraint is violated; `activo` defaults to 1. -/
def insertClienteRow (db : DB) (nombre cedula telefono direccion codigo : Str) :
    Except Str DB :=
  if db.clientes.any (fun c => decide (c.cedula = cedula)) then
    .error "UNIQUE constraint failed: clientes.cedula".data
  else if db.clientes.any (fun c => decide (c.codigo_descuento = codigo)) then
    .error "UNIQUE constraint failed: clientes.codigo_descuento".data
  else
    .ok { db with
          clientes := db.clientes ++
            [{ id := db.next_cliente_id
               nombre := nombre
               cedula := cedula
               telefono := telefono
               direccion := direccion
               codigo_descuento := codigo
               activo := true }],
          next_cliente_id := db.next_cliente_id + 1 }

/-! ## ProductoManager -/

/-- `ProductoManager.obtener_productos`:
`SELECT id, nombre, precio FROM productos` with **no** try/except — a
store-layer exception propagates to the caller (`.error`). -/
def obtener_productos (db : DB) (fault : Option Str) : Except Str (List Producto) :=
  match fault with
  | some e => .error e
  | none => .ok db.productos

/-- `ProductoManager.agregar_producto`: the insert, with
`except sqlite3.IntegrityError` mapped to the fixed duplicate-name message
(note: a `CHECK(precio > 0)` violation is also an IntegrityError and yields
the same message) and `except Exception` to `"Error inesperado: …"`.
Every exception path leaves the store unchanged (close without commit). -/
def agregar_producto (db : DB) (fault : Option Str) (nombre : Str) (precio : ℚ) :
    DB × Bool × Str :=
  match fault with
  | some e => (db, false, "Error inesperado: ".data ++ e)
  | none =>
    match insertProductoRow db nombre precio with
    | .ok db' => (db', true, "Producto agregado exitosamente".data)
    | .error _ => (db, false, "Error: El nombre del producto ya existe".data)

/-- `ProductoManager.eliminar_producto`:
`DELETE FROM productos WHERE id = ?`; with `PRAGMA foreign_keys = ON` the
`ON DELETE SET NULL` action nulls the `producto_id` of dependent
`ventas_detalle` rows. `except Exception` yields `"No se puede eliminar: …"`. -/
def eliminar_producto (db : DB) (fault : Option Str) (producto_id : Nat) :
    DB × Bool × Str :=
  match fault with
  | some e => (db, false, "No se puede eliminar: ".data ++ e)
  | none =>
    ({ db with
       productos := db.productos.filter (fun p => !(decide (p.id = producto_id))),
       ventas_detalle := db.ventas_detalle.map (fun d =>
         if d.producto_id = some producto_id then { d with producto_id := none } else d) },
     true, "Producto eliminado exitosamente".data)

/-- `ProductoManager.actualizar_producto`:
`UPDATE productos SET nombre = ?, precio = ? WHERE id = ?`. When a row
matches, SQLite raises IntegrityError if the new name collides with a
*different* row (UNIQUE) or the new price violates `CHECK(precio > 0)`;
the manager maps IntegrityError to the fixed duplicate-name message. An
UPDATE matching zero rows succeeds vacuously. -/
def actualizar_producto (db : DB) (fault : Option Str) (producto_id : Nat)
    (nuevo_nombre : Str) (nuevo_precio : ℚ) : DB × Bool × Str :=
  match fault with
  | some e => (db, false, "Error inesperado: ".data ++ e)
  | none =>
    if db.productos.any (fun p => decide (p.id = producto_id)) &&
       (decide (nuevo_precio ≤ 0) ||
        db.productos.any (fun p =>
          !(decide (p.id = producto_id)) && decide (p.nombre = nuevo_nombre))) then
      (db, false, "Error: El nuevo nombre ya existe".data)
    else
      ({ db with productos := db.productos.map (fun p =>
           if p.id = producto_id then
             { p with nombre := nuevo_nombre, precio := nuevo_precio }
           else p) },
       true, "Producto actualizado exitosamente".data)

/-! ## VentaManager -/

/-- The product-name summary persisted in the `producto` column:
`', '.join(productos_nombres)`, truncated to its first 252 characters plus
`"..."` when longer than 255 characters (`registrar_venta`, lines 131-135). -/
def producto_str_of (nombres : List Str) : Str :=
  let s := List.intercalate ", ".data nombres
  if s.length > 255 then s.take 252 ++ "...".data else s

/-- The `ventas` header row built by `registrar_venta`:
`total = sum(item['subtotal'] for item in factura['items'])`,
`descuento = factura['monto_descuento'] if factura['descuento'] else 0`,
`numero_factura = f"FACT-{shortuuid…random(10)}"` (the random token is the
`uuid` input), and the truncated product-name summary. -/
def mkVenta (db : DB) (fecha uuid : Str) (f : Factura) : Venta :=
  { id := db.next_venta_id
    fecha := fecha
    total := (f.items.map (fun i => i.subtotal)).sum
    numero_factura := "FACT-".data ++ uuid
    descuento := if f.descuento then f.monto_descuento else 0
    producto := producto_str_of (f.items.map (fun i => i.nombre)) }

/-- One `ventas_detalle` row inserted by the loop of `registrar_venta`:
`(venta_id, item['producto_id'], item['cantidad'], item['precio'],
item.get('descuento_total', 0))`. -/
def mkDetalle (venta_id : Nat) (item : Item) : VentaDetalle :=
  { venta_id := venta_id
    producto_id := item.producto_id
    cantidad := item.cantidad
    precio_unitario := item.precio
    descuento_aplicado := item.descuento_total }

/-- The `for item in factura['items']` insert loop of `registrar_venta`;
stops at the first IntegrityError. -/
def insertDetalles (venta_id : Nat) : DB → List Item → Except Str DB
  | db, [] => .ok db
  | db, item :: rest =>
    match insertDetalleRow db (mkDetalle venta_id item) with
    | .error e => .error e
    | .ok db' => insertDetalles venta_id db' rest

/-- `VentaManager.registrar_venta(factura)`: inserts the header, reads
`lastrowid`, inserts every line item, commits, and returns
`(True, numero_factura)`; `except Exception` returns
`(False, "Error al registrar venta: …")`, and closing the connection without
commit rolls the partial writes back, so the error paths return the original
store. Note the function performs no validation of its own: an empty
`items` list or a zero total is accepted (the `total > 0` gate lives in
`pantalla_facturacion`, not here). -/
def registrar_venta (db : DB) (fault : Option Str) (fecha uuid : Str)
    (f : Factura) : DB × Bool × Str :=
  match fault with
  | some e => (db, false, "Error al registrar venta: ".data ++ e)
  | none =>
    match insertVentaRow db (mkVenta db fecha uuid f) with
    | .error e => (db, false, "Error al registrar venta: ".data ++ e)
    | .ok db1 =>
      match insertDetalles db.next_venta_id db1 f.items with
      | .error e => (db, false, "Error al registrar venta: ".data ++ e)
      | .ok db2 => (db2, true, "FACT-".data ++ uuid)

/-- `VentaManager.obtener_ventas_por_fecha`:
`SELECT numero_factura, fecha, total, descuento, producto FROM ventas WHERE
fecha = ?` with **no** try/except — a store-layer exception propagates. -/
def obtener_ventas_por_fecha (db : DB) (fault : Option Str) (fecha : Str) :
    Except Str (List (Str × Str × ℚ × ℚ × Str)) :=
  match fault with
  | some e => .error e
  | none =>
    .ok ((db.ventas.filter (fun v => decide (v.fecha = fecha))).map
      (fun v => (v.numero_factura, v.fecha, v.total, v.descuento, v.producto)))

/-! ## ClienteManager -/

/-- The query run by `obtener_clientes`:
`SELECT * FROM clientes WHERE activo = ?` with parameter 1 when
`activos=True`, else `SELECT * FROM clientes`. -/
def clientes_query (db : DB) (activos : Bool) : List Cliente :=
  if activos then db.clientes.filter (fun c => c.activo) else db.clientes

/-- `ClienteManager.obtener_clientes`: **no** try/except — a store-layer
exception propagates to the caller. -/
def obtener_clientes (db : DB) (fault : Option Str) (activos : Bool) :
    Except Str (List Cliente) :=
  match fault with
  | some e => .error e
  | none => .ok (clientes_query db activos)

/-- Helper for `generar_codigo_descuento`: Python's `nombre.split()`
(whitespace tokenisation into non-empty words; the accumulator holds the
current word reversed). -/
def palabrasAux : Str → Str → List Str
  | [], acc => if acc.isEmpty then [] else [acc.reverse]
  | c :: rest, acc =>
    if c = ' ' then
      (if acc.isEmpty then palabrasAux rest [] else acc.reverse :: palabrasAux rest [])
    else palabrasAux rest (c :: acc)

def palabras (s : Str) : List Str := palabrasAux s []

/-- `ClienteManager.generar_codigo_descuento(nombre)`:
initials of the first two words, uppercased, then `-`, then 4 random
uppercase-alphanumeric characters (`random.choices` modelled as the
`random_part` input). -/
def generar_codigo_descuento (nombre : Str) (random_part : Str) : Str :=
  let iniciales := (((palabras nombre).take 2).filterMap List.head?).map Char.toUpper
  iniciales ++ "-".data ++ random_part

/-- `ClienteManager.agregar_cliente`: generates the code, inserts;
`except sqlite3.IntegrityError` yields the fixed duplicate message,
`except Exception` yields `"Error: …"`. -/
def agregar_cliente (db : DB) (fault : Option Str) (random_part : Str)
    (nombre cedula telefono direccion : Str) : DB × Bool × Str :=
  let codigo := generar_codigo_descuento nombre random_part
  match fault with
  | some e => (db, false, "Error: ".data ++ e)
  | none =>
    match insertClienteRow db nombre cedula telefono direccion codigo with
    | .ok db' => (db', true, codigo)
    | .error _ => (db, false, "Error: Cédula o código ya existen".data)

/-- `ClienteManager.actualizar_cliente`:
`UPDATE clientes SET nombre, cedula, telefono, direccion WHERE id = ?`
(the `codigo_descuento` column is never updated). IntegrityError (the
UNIQUE `cedula` colliding with a different row) yields the fixed message. -/
def actualizar_cliente (db : DB) (fault : Option Str) (cliente_id : Nat)
    (nombre cedula telefono direccion : Str) : DB × Bool × Str :=
  match fault with
  | some e => (db, false, "Error: ".data ++ e)
  | none =>
    if db.clientes.any (fun c => decide (c.id = cliente_id)) &&
       db.clientes.any (fun c =>
         !(decide (c.id = cliente_id)) && decide (c.cedula = cedula)) then
      (db, false, "Error: Cédula ya existe".data)
    else
      ({ db with clientes := db.clientes.map (fun c =>
           if c.id = cliente_id then
             { c with nombre := nombre
                      cedula := cedula
                      telefono := telefono
                      direccion := direccion }
           else c) },
       true, "Cliente actualizado".data)

/-- `ClienteManager.eliminar_cliente`: a soft delete,
`UPDATE clientes SET activo = 0 WHERE id = ?` — the row is never removed. -/
def eliminar_cliente (db : DB) (fault : Option Str) (cliente_id : Nat) :
    DB × Bool × Str :=
  match fault with
  | some e => (db, false, "Error: ".data ++ e)
  | none =>
    ({ db with clientes := db.clientes.map (fun c =>
         if c.id = cliente_id then { c with activo := false } else c) },
     true, "Cliente desactivado".data)

/-! ## The per-unit discount computation of `pantalla_facturacion`
(lines 427-439 and 451). -/

/-- Line 430: `df['descuento_por_unidad'] = df['precio'].apply(lambda p:
min(monto, p))` — the per-unit discount is capped at the unit price. -/
def descuento_por_unidad (monto precio : ℚ) : ℚ := min monto precio

/-- Line 431: `df['descuento_total'] = df['descuento_por_unidad'] *
df['cantidad']`. -/
def descuento_total_linea (monto : ℚ) (item : Item) : ℚ :=
  descuento_por_unidad monto item.precio * (item.cantidad : ℚ)

/-- Lines 432-433: `df['subtotal'] = (df['precio'] * df['cantidad']) -
df['descuento_total']`, then clamped with `max(x, 0)`. -/
def subtotal_linea (monto : ℚ) (item : Item) : ℚ :=
  max (item.precio * (item.cantidad : ℚ) - descuento_total_linea monto item) 0

/-- Lines 436-437: the write-back into `st.session_state.factura['items']` —
**only** the `descuento_total` key is written back; the items' `subtotal`
keys keep the gross `cantidad * precio` value set when the item was added
(line 376). -/
def actualizar_items_descuento (monto : ℚ) (items : List Item) : List Item :=
  items.map (fun item => { item with descuento_total := descuento_total_linea monto item })

/-- The per-line value of the displayed `df['subtotal']` column: discounted
and clamped when a discount is active (lines 430-433), gross otherwise
(line 439). -/
def df_item_subtotal (descuento : Bool) (monto : ℚ) (item : Item) : ℚ :=
  if descuento then subtotal_linea monto item
  else item.precio * (item.cantidad : ℚ)

/-- Line 451: `total = df['subtotal'].sum()` — the total shown on screen,
gated by `total > 0` before `registrar_venta` is called (lines 454-460), and
passed to `generar_pdf` as the amount to pay. -/
def total_mostrado (f : Factura) : ℚ :=
  (f.items.map (df_item_subtotal f.descuento f.monto_descuento)).sum

/-! ## Concrete fixtures (the scenario of spec §8: `Product("Shampoo",
500.00)`, quantity 3, per-unit discount tier 100). -/

def itemShampoo : Item :=
  { producto_id := some 1
    nombre := "Shampoo".data
    precio := 500
    cantidad := 3
    subtotal := 1500 }

def dbShampoo : DB :=
  { productos := [{ id := 1, nombre := "Shampoo".data, precio := 500 }]
    ventas := []
    ventas_detalle := []
    clientes := []
    next_producto_id := 2
    next_venta_id := 1
    next_cliente_id := 1 }

/-- The draft after adding 3 × Shampoo and applying the tier-100 per-unit
discount (`descuento_total` written back, `subtotal` left gross — exactly
what lines 436-437 do). -/
def facturaDescuento : Factura :=
  { items := actualizar_items_descuento 100 [itemShampoo]
    descuento := true
    codigo_usado := some "CC-AB12".data
    monto_descuento := 100 }

def facturaVacia : Factura :=
  { items := [], descuento := false, codigo_usado := none, monto_descuento := 0 }

def fecha0 : Str := "2025-01-15".data

def uuidA : Str := "AAAAAAAAAA".data

def uuidB : Str := "BBBBBBBBBB".data

def itemNeg : Item :=
  { producto_id := none
    nombre := "X".data
    precio := 5
    cantidad := 1
    subtotal := -1 }

def facturaNeg : Factura :=
  { items := [itemNeg], descuento := false, codigo_usado := none, monto_descuento := 0 }

def clienteAna : Cliente :=
  { id := 7
    nombre := "Ana Perez".data
    cedula := "00123456789".data
    telefono := "809-555-0000".data
    direccion := "Los Alcarrizos".data
    codigo_descuento := "AP-XY12".data
    activo := true }

def dbClientes : DB :=
  { productos := []
    ventas := []
    ventas_detalle := []
    clientes := [clienteAna]
    next_producto_id := 1
    next_venta_id := 1
    next_cliente_id := 8 }

theorem insertDetalleRow_ok {db : DB} {d : VentaDetalle} {db' : DB}
    (h : insertDetalleRow db d = .ok db') :
    db' = { db with ventas_detalle := db.ventas_detalle ++ [d] } := by
  unfold insertDetalleRow at h
  split_ifs at h
  simp_all

theorem insertDetalles_ok (vid : Nat) :
    ∀ (items : List Item) (db db' : DB), insertDetalles vid db items = .ok db' →
      db' = { db with ventas_detalle := db.ventas_detalle ++ items.map (mkDetalle vid) }
  | [], db, db', h => by
    simp only [insertDetalles] at h
    cases h
    simp
  | item :: rest, db, db', h => by
    simp only [insertDetalles] at h
    cases hr : insertDetalleRow db (mkDetalle vid item) with
    | error e => rw [hr] at h; cases h
    | ok dbx =>
      rw [hr] at h
      have h2 := insertDetalles_ok vid rest dbx db' h
      rw [insertDetalleRow_ok hr] at h2
      simp [h2]

theorem insertVentaRow_ok {db : DB} {v : Venta} {db' : DB}
    (h : insertVentaRow db v = .ok db') :
    db' = { db with ventas := db.ventas ++ [v], next_venta_id := db.next_venta_id + 1 } ∧
    db.ventas.any (fun w => decide (w.numero_factura = v.numero_factura)) = false ∧
    ¬ v.total < 0 := by
  unfold insertVentaRow at h
  split_ifs at h
  simp_all

/-- shape of a successful call -/
theorem registrar_venta_success {db : DB} {fecha uuid : Str} {f : Factura}
    (h : (registrar_venta db none fecha uuid f).2.1 = true) :
    (registrar_venta db none fecha uuid f).1 =
      { db with ventas := db.ventas ++ [mkVenta db fecha uuid f],
                ventas_detalle := db.ventas_detalle ++ f.items.map (mkDetalle db.next_venta_id),
                next_venta_id := db.next_venta_id + 1 } ∧
    (registrar_venta db none fecha uuid f).2.2 = "FACT-".data ++ uuid ∧
    db.ventas.any (fun w => decide (w.numero_factura = "FACT-".data ++ uuid)) = false := by
  cases hv : insertVentaRow db (mkVenta db fecha uuid f) with
  | error e => simp [registrar_venta, hv] at h
  | ok db1 =>
    cases hd : insertDetalles db.next_venta_id db1 f.items with
    | error e => simp [registrar_venta, hv, hd] at h
    | ok db2 =>
      obtain ⟨hdb1, hfresh, -⟩ := insertVentaRow_ok hv
      have hdb2 := insertDetalles_ok db.next_venta_id f.items db1 db2 hd
      subst hdb1
      subst hdb2
      refine ⟨?_, ?_, ?_⟩
      · simp [registrar_venta, hv, hd]
      · simp [registrar_venta, hv, hd]
      · exact hfresh

theorem registrar_venta_failure {db : DB} {fault : Option Str} {fecha uuid : Str} {f : Factura}
    (h : (registrar_venta db fault fecha uuid f).2.1 = false) :
    (registrar_venta db fault fecha uuid f).1 = db := by
  cases fault with
  | some e => simp [registrar_venta]
  | none =>
    cases hv : insertVentaRow db (mkVenta db fecha uuid f) with
    | error e => simp [registrar_venta, hv]
    | ok db1 =>
      cases hd : insertDetalles db.next_venta_id db1 f.items with
      | error e => simp [registrar_venta, hv, hd]
      | ok db2 => simp [registrar_venta, hv, hd] at h

theorem registrar_venta_collision (fecha : Str) (f : Factura) {db : DB} {uuid : Str}
    (hcol : db.ventas.any (fun w => decide (w.numero_factura = "FACT-".data ++ uuid)) = true) :
    (registrar_venta db none fecha uuid f).2.1 = false := by
  cases hv : insertVentaRow db (mkVenta db fecha uuid f) with
  | error e => simp [registrar_venta, hv]
  | ok db1 =>
    obtain ⟨-, hfresh, -⟩ := insertVentaRow_ok hv
    rw [show (mkVenta db fecha uuid f).numero_factura = "FACT-".data ++ uuid from rfl] at hfresh
    rw [hfresh] at hcol
    cases hcol

theorem registrar_venta_neg_total {db : DB} {fecha uuid : Str} {f : Factura}
    (h : (f.items.map (fun i => i.subtotal)).sum < 0) :
    (registrar_venta db none fecha uuid f).2.1 = false ∧
    (registrar_venta db none fecha uuid f).1 = db := by
  have hv : insertVentaRow db (mkVenta db fecha uuid f) =
      .error "CHECK constraint failed: total >= 0".data := by
    unfold insertVentaRow
    rw [if_pos]
    exact h
  simp [registrar_venta, hv]

theorem registrar_venta_empty {db : DB} {fecha uuid : Str} {f : Factura}
    (h1 : f.items = [])
    (h2 : db.ventas.any (fun w => decide (w.numero_factura = "FACT-".data ++ uuid)) = false) :
    (registrar_venta db none fecha uuid f).2.1 = true := by
  have hv : insertVentaRow db (mkVenta db fecha uuid f) =
      .ok { db with ventas := db.ventas ++ [mkVenta db fecha uuid f],
                    next_venta_id := db.next_venta_id + 1 } := by
    unfold insertVentaRow
    rw [if_neg, if_neg]
    · rw [show (mkVenta db fecha uuid f).numero_factura = "FACT-".data ++ uuid from rfl, h2]
      simp
    · show ¬ (mkVenta db fecha uuid f).total < 0
      simp [mkVenta, h1]
  simp [registrar_venta, hv, insertDetalles, h1]

theorem producto_str_of_length_le (nombres : List Str) :
    (producto_str_of nombres).length ≤ 255 := by
  have hdef : producto_str_of nombres =
      (if (List.intercalate ", ".data nombres).length > 255
       then (List.intercalate ", ".data nombres).take 252 ++ "...".data
       else List.intercalate ", ".data nombres) := rfl
  have h3 : ("...".data : Str).length = 3 := rfl
  rw [hdef]
  split_ifs with h
  · rw [List.length_append, List.length_take, h3]
    omega
  · omega

/-- C3: on success the sale header and all line-item rows are appended
together (and nothing else changes); on any failure the store is exactly the
original one (rollback on close-without-commit). -/
theorem C3_registrar_venta_atomic (db : DB) (fault : Option Str) (fecha uuid : Str)
    (f : Factura) :
    ((registrar_venta db fault fecha uuid f).2.1 = true →
      (registrar_venta db fault fecha uuid f).1 =
        { db with ventas := db.ventas ++ [mkVenta db fecha uuid f],
                  ventas_detalle := db.ventas_detalle ++ f.items.map (mkDetalle db.next_venta_id),
                  next_venta_id := db.next_venta_id + 1 }) ∧
    ((registrar_venta db fault fecha uuid f).2.1 = false →
      (registrar_venta db fault fecha uuid f).1 = db) := by
  constructor
  · intro h
    cases fault with
    | some e => simp [registrar_venta] at h
    | none => exact (registrar_venta_success h).1
  · intro h
    exact registrar_venta_failure h

theorem C3_witness :
    (registrar_venta dbShampoo none fecha0 uuidA facturaDescuento).2.1 = true ∧
    (registrar_venta dbShampoo none fecha0 uuidA facturaDescuento).1 =
      { dbShampoo with
        ventas := dbShampoo.ventas ++ [mkVenta dbShampoo fecha0 uuidA facturaDescuento],
        ventas_detalle := dbShampoo.ventas_detalle ++
          facturaDescuento.items.map (mkDetalle dbShampoo.next_venta_id),
        next_venta_id := dbShampoo.next_venta_id + 1 } ∧
    (registrar_venta dbShampoo (some "disk full".data) fecha0 uuidA facturaDescuento).2.1 = false ∧
    (registrar_venta dbShampoo (some "disk full".data) fecha0 uuidA facturaDescuento).1 = dbShampoo := by
  have hs : (registrar_venta dbShampoo none fecha0 uuidA facturaDescuento).2.1 = true := by
    norm_num [registrar_venta, insertVentaRow, insertDetalles, insertDetalleRow, mkVenta,
      mkDetalle, producto_str_of, fkProductoOk, facturaDescuento, dbShampoo, itemShampoo,
      actualizar_items_descuento, descuento_total_linea, descuento_por_unidad, min_def]
  have hf : (registrar_venta dbShampoo (some "disk full".data) fecha0 uuidA
      facturaDescuento).2.1 = false := rfl
  exact ⟨hs, (C3_registrar_venta_atomic dbShampoo none fecha0 uuidA facturaDescuento).1 hs,
    hf, (C3_registrar_venta_atomic dbShampoo (some "disk full".data) fecha0 uuidA
      facturaDescuento).2 hf⟩

/-- C2 counterexample: a draft with zero line items is accepted by
`registrar_venta` (success result) and commits a header row. -/
theorem C2_counterexample :
    facturaVacia.items = [] ∧
    (registrar_venta dbShampoo none fecha0 uuidA facturaVacia).2.1 = true ∧
    (registrar_venta dbShampoo none fecha0 uuidA facturaVacia).1.ventas.length = 1 := by
  refine ⟨rfl, ?_, ?_⟩ <;> decide

/-- C2 (amended): `registrar_venta` does no zero-item / total>0 validation;
it fails and commits nothing when the computed total is strictly negative
(the store CHECK), while a zero-item draft with a fresh invoice number
succeeds. -/
theorem C2_registrar_venta_validation (db : DB) (fecha uuid : Str) (f : Factura) :
    ((f.items.map (fun i => i.subtotal)).sum < 0 →
      (registrar_venta db none fecha uuid f).2.1 = false ∧
      (registrar_venta db none fecha uuid f).1 = db) ∧
    (f.items = [] →
      db.ventas.any (fun w => decide (w.numero_factura = "FACT-".data ++ uuid)) = false →
      (registrar_venta db none fecha uuid f).2.1 = true) :=
  ⟨fun h => registrar_venta_neg_total h, fun h1 h2 => registrar_venta_empty h1 h2⟩

theorem C2_witness :
    ((registrar_venta dbShampoo none fecha0 uuidA facturaNeg).2.1 = false ∧
     (registrar_venta dbShampoo none fecha0 uuidA facturaNeg).1 = dbShampoo) ∧
    (registrar_venta dbShampoo none fecha0 uuidB facturaVacia).2.1 = true := by
  refine ⟨(C2_registrar_venta_validation dbShampoo fecha0 uuidA facturaNeg).1 ?_,
    (C2_registrar_venta_validation dbShampoo fecha0 uuidB facturaVacia).2 rfl ?_⟩
  · norm_num [facturaNeg, itemNeg]
  · decide

/-- C4: the per-unit discount is capped at the unit price, the effective
unit price is never negative, and the displayed line subtotal equals the
effective unit price times the quantity and is never negative. -/
theorem C4_per_unit_discount_capped (monto : ℚ) (item : Item) :
    descuento_por_unidad monto item.precio ≤ item.precio ∧
    0 ≤ item.precio - descuento_por_unidad monto item.precio ∧
    subtotal_linea monto item =
      (item.precio - descuento_por_unidad monto item.precio) * (item.cantidad : ℚ) ∧
    0 ≤ subtotal_linea monto item := by
  have h1 : descuento_por_unidad monto item.precio ≤ item.precio := min_le_right _ _
  have h2 : 0 ≤ item.precio - descuento_por_unidad monto item.precio := sub_nonneg.mpr h1
  have h3 : item.precio * (item.cantidad : ℚ) - descuento_total_linea monto item =
      (item.precio - descuento_por_unidad monto item.precio) * (item.cantidad : ℚ) := by
    unfold descuento_total_linea
    ring
  have h4 : 0 ≤ (item.precio - descuento_por_unidad monto item.precio) * (item.cantidad : ℚ) :=
    mul_nonneg h2 (by positivity)
  refine ⟨h1, h2, ?_, ?_⟩
  · unfold subtotal_linea
    rw [h3]
    exact max_eq_left h4
  · exact le_max_right _ _

/-- C6: adding a product whose name already exists fails with the
duplicate-name message and leaves the store unchanged. -/
theorem C6_duplicate_product_name (db : DB) (nombre : Str) (precio : ℚ)
    (h : db.productos.any (fun p => decide (p.nombre = nombre)) = true) :
    agregar_producto db none nombre precio =
      (db, false, "Error: El nombre del producto ya existe".data) := by
  by_cases hp : precio ≤ 0
  · simp [agregar_producto, insertProductoRow, hp]
  · simp [agregar_producto, insertProductoRow, hp, h]

theorem C6_witness :
    agregar_producto dbShampoo none "Shampoo".data 42 =
      (dbShampoo, false, "Error: El nombre del producto ya existe".data) :=
  C6_duplicate_product_name dbShampoo "Shampoo".data 42 (by decide)

/-- C5: two successful recordings in a row return distinct invoice numbers;
a colliding random token makes the second recording fail visibly, leaving
the store as it was after the first. -/
theorem C5_invoice_numbers_unique (db : DB) (fecha1 uuid1 fecha2 uuid2 : Str)
    (f1 f2 : Factura) :
    ((registrar_venta db none fecha1 uuid1 f1).2.1 = true →
      (registrar_venta (registrar_venta db none fecha1 uuid1 f1).1 none fecha2 uuid2 f2).2.1 = true →
      (registrar_venta db none fecha1 uuid1 f1).2.2 ≠
        (registrar_venta (registrar_venta db none fecha1 uuid1 f1).1 none fecha2 uuid2 f2).2.2) ∧
    ((registrar_venta db none fecha1 uuid1 f1).2.1 = true → uuid2 = uuid1 →
      (registrar_venta (registrar_venta db none fecha1 uuid1 f1).1 none fecha2 uuid2 f2).2.1 = false ∧
      (registrar_venta (registrar_venta db none fecha1 uuid1 f1).1 none fecha2 uuid2 f2).1 =
        (registrar_venta db none fecha1 uuid1 f1).1) := by
  constructor
  · intro h1 h2 heq
    obtain ⟨hdb1, hmsg1, -⟩ := registrar_venta_success h1
    obtain ⟨-, hmsg2, hfresh2⟩ := registrar_venta_success h2
    rw [hmsg1, hmsg2] at heq
    rw [hdb1] at hfresh2
    simp [List.any_append, mkVenta] at hfresh2
    exact hfresh2.2 (List.append_cancel_left heq)
  · intro h1 hu
    subst hu
    obtain ⟨hdb1, -, -⟩ := registrar_venta_success h1
    have hcol : ((registrar_venta db none fecha1 uuid2 f1).1.ventas.any
        (fun w => decide (w.numero_factura = "FACT-".data ++ uuid2))) = true := by
      rw [hdb1]
      simp [List.any_append, mkVenta]
    have hfail := registrar_venta_collision fecha2 f2 hcol
    exact ⟨hfail, registrar_venta_failure hfail⟩

theorem C5_witness :
    (registrar_venta dbShampoo none fecha0 uuidA facturaVacia).2.2 ≠
      (registrar_venta (registrar_venta dbShampoo none fecha0 uuidA facturaVacia).1
        none fecha0 uuidB facturaVacia).2.2 ∧
    (registrar_venta (registrar_venta dbShampoo none fecha0 uuidA facturaVacia).1
        none fecha0 uuidA facturaVacia).2.1 = false ∧
    (registrar_venta (registrar_venta dbShampoo none fecha0 uuidA facturaVacia).1
        none fecha0 uuidA facturaVacia).1 =
      (registrar_venta dbShampoo none fecha0 uuidA facturaVacia).1 := by
  have h1 : (registrar_venta dbShampoo none fecha0 uuidA facturaVacia).2.1 = true := by decide
  have h2 : (registrar_venta (registrar_venta dbShampoo none fecha0 uuidA facturaVacia).1
      none fecha0 uuidB facturaVacia).2.1 = true := by decide
  refine ⟨(C5_invoice_numbers_unique dbShampoo fecha0 uuidA fecha0 uuidB
    facturaVacia facturaVacia).1 h1 h2, ?_⟩
  exact (C5_invoice_numbers_unique dbShampoo fecha0 uuidA fecha0 uuidA
    facturaVacia facturaVacia).2 h1 rfl

/-- C7 counterexample: a store-layer fault in `obtener_productos` (which has
no try/except) propagates to the caller as an unhandled exception instead of
being converted into a `(success, message)` pair. -/
theorem C7_counterexample :
    obtener_productos dbShampoo (some "disk I/O error".data) =
      Except.error "disk I/O error".data := rfl

/-- C7 (amended): the mutating manager operations catch every store-layer
exception and return a `(success, message)` pair with the store unchanged,
but the three read-only operations have no handler and propagate the fault. -/
theorem C7_exception_policy (db : DB) (e : Str) (fecha uuid nombre cedula telefono
    direccion rand : Str) (precio : ℚ) (pid cid : Nat) (activos : Bool) (f : Factura) :
    obtener_productos db (some e) = Except.error e ∧
    obtener_ventas_por_fecha db (some e) fecha = Except.error e ∧
    obtener_clientes db (some e) activos = Except.error e ∧
    agregar_producto db (some e) nombre precio =
      (db, false, "Error inesperado: ".data ++ e) ∧
    eliminar_producto db (some e) pid = (db, false, "No se puede eliminar: ".data ++ e) ∧
    actualizar_producto db (some e) pid nombre precio =
      (db, false, "Error inesperado: ".data ++ e) ∧
    registrar_venta db (some e) fecha uuid f =
      (db, false, "Error al registrar venta: ".data ++ e) ∧
    agregar_cliente db (some e) rand nombre cedula telefono direccion =
      (db, false, "Error: ".data ++ e) ∧
    actualizar_cliente db (some e) cid nombre cedula telefono direccion =
      (db, false, "Error: ".data ++ e) ∧
    eliminar_cliente db (some e) cid = (db, false, "Error: ".data ++ e) :=
  ⟨rfl, rfl, rfl, rfl, rfl, rfl, rfl, rfl, rfl, rfl⟩

/-- C8: deactivating an existing customer succeeds, keeps the row count,
keeps the row (with only `activo` flipped, every other field including the
discount code unchanged) in the unfiltered listing, and excludes it from the
active-only listing. -/
theorem C8_soft_delete (db : DB) (cliente_id : Nat) (c : Cliente)
    (hc : c ∈ db.clientes) (hid : c.id = cliente_id) :
    (eliminar_cliente db none cliente_id).2.1 = true ∧
    (eliminar_cliente db none cliente_id).1.clientes.length = db.clientes.length ∧
    { c with activo := false } ∈ clientes_query (eliminar_cliente db none cliente_id).1 false ∧
    (∀ d ∈ clientes_query (eliminar_cliente db none cliente_id).1 true, d.id ≠ cliente_id) ∧
    obtener_clientes (eliminar_cliente db none cliente_id).1 none true =
      Except.ok (clientes_query (eliminar_cliente db none cliente_id).1 true) := by
  have hdb : (eliminar_cliente db none cliente_id).1.clientes =
      db.clientes.map (fun x => if x.id = cliente_id then { x with activo := false } else x) := rfl
  refine ⟨rfl, ?_, ?_, ?_, rfl⟩
  · rw [hdb, List.length_map]
  · show _ ∈ clientes_query _ false
    have hmem := List.mem_map_of_mem
      (fun x => if x.id = cliente_id then { x with activo := false } else x) hc
    have hbeta : (fun x => if x.id = cliente_id then { x with activo := false } else x) c =
        { c with activo := false } := by
      simp [hid]
    rw [hbeta] at hmem
    simpa [clientes_query, hdb] using hmem
  · intro d hd
    simp [clientes_query, hdb, List.mem_filter, List.mem_map] at hd
    obtain ⟨⟨x, hx, hgx⟩, hact⟩ := hd
    by_cases hxid : x.id = cliente_id
    · rw [if_pos hxid] at hgx
      subst hgx
      simp at hact
    · rw [if_neg hxid] at hgx
      subst hgx
      exact hxid

theorem C8_witness :
    (eliminar_cliente dbClientes none 7).2.1 = true ∧
    { clienteAna with activo := false } ∈
      clientes_query (eliminar_cliente dbClientes none 7).1 false ∧
    clientes_query (eliminar_cliente dbClientes none 7).1 true = [] := by
  have h := C8_soft_delete dbClientes 7 clienteAna (by decide) rfl
  exact ⟨h.1, h.2.2.1, by decide⟩

/-- C9: the persisted product-name summary is the comma-separated join of
the draft's item names, truncated to its first 252 characters plus `"..."`
when the join exceeds 255 characters, and is never longer than 255. -/
theorem C9_producto_summary (db : DB) (fecha uuid : Str) (f : Factura)
    (h : (registrar_venta db none fecha uuid f).2.1 = true) :
    (registrar_venta db none fecha uuid f).1.ventas =
      db.ventas ++ [mkVenta db fecha uuid f] ∧
    (mkVenta db fecha uuid f).producto = producto_str_of (f.items.map (fun i => i.nombre)) ∧
    producto_str_of (f.items.map (fun i => i.nombre)) =
      (if (List.intercalate ", ".data (f.items.map (fun i => i.nombre))).length > 255
       then (List.intercalate ", ".data (f.items.map (fun i => i.nombre))).take 252 ++ "...".data
       else List.intercalate ", ".data (f.items.map (fun i => i.nombre))) ∧
    ((mkVenta db fecha uuid f).producto).length ≤ 255 := by
  refine ⟨?_, rfl, rfl, producto_str_of_length_le _⟩
  have hdb := (registrar_venta_success h).1
  rw [hdb]

/-- C10: the persisted header `descuento` is the selected per-unit tier when
the discount flag is set and 0 otherwise, while each line-item row stores
that line's own `descuento_total`; the header field is the tier, not the sum
of the per-line discounts. -/
theorem C10_discount_fields (db : DB) (fecha uuid : Str) (f : Factura)
    (h : (registrar_venta db none fecha uuid f).2.1 = true) :
    (registrar_venta db none fecha uuid f).1.ventas =
      db.ventas ++ [mkVenta db fecha uuid f] ∧
    (mkVenta db fecha uuid f).descuento = (if f.descuento then f.monto_descuento else 0) ∧
    (registrar_venta db none fecha uuid f).1.ventas_detalle =
      db.ventas_detalle ++ f.items.map (mkDetalle db.next_venta_id) ∧
    (f.items.map (mkDetalle db.next_venta_id)).map (fun d => d.descuento_aplicado) =
      f.items.map (fun i => i.descuento_total) := by
  have hdb := (registrar_venta_success h).1
  refine ⟨?_, rfl, ?_, ?_⟩
  · rw [hdb]
  · rw [hdb]
  · rw [List.map_map]
    rfl

theorem C10_witness :
    (registrar_venta dbShampoo none fecha0 uuidB facturaDescuento).2.1 = true ∧
    (mkVenta dbShampoo fecha0 uuidB facturaDescuento).descuento =
      (if facturaDescuento.descuento then facturaDescuento.monto_descuento else 0) ∧
    (registrar_venta dbShampoo none fecha0 uuidB facturaDescuento).1.ventas_detalle =
      dbShampoo.ventas_detalle ++ facturaDescuento.items.map (mkDetalle dbShampoo.next_venta_id) := by
  have hs : (registrar_venta dbShampoo none fecha0 uuidB facturaDescuento).2.1 = true := by
    norm_num [registrar_venta, insertVentaRow, insertDetalles, insertDetalleRow, mkVenta,
      mkDetalle, producto_str_of, fkProductoOk, facturaDescuento, dbShampoo, itemShampoo,
      actualizar_items_descuento, descuento_total_linea, descuento_por_unidad, min_def]
  have h := C10_discount_fields dbShampoo fecha0 uuidB facturaDescuento hs
  exact ⟨hs, h.2.1, h.2.2.1⟩

theorem C9_witness :
    (registrar_venta dbShampoo none fecha0 uuidA facturaDescuento).2.1 = true ∧
    (mkVenta dbShampoo fecha0 uuidA facturaDescuento).producto =
      producto_str_of (facturaDescuento.items.map (fun i => i.nombre)) ∧
    ((mkVenta dbShampoo fecha0 uuidA facturaDescuento).producto).length ≤ 255 ∧
    (mkVenta dbShampoo fecha0 uuidA facturaDescuento).producto = "Shampoo".data := by
  have hs : (registrar_venta dbShampoo none fecha0 uuidA facturaDescuento).2.1 = true := by
    norm_num [registrar_venta, insertVentaRow, insertDetalles, insertDetalleRow, mkVenta,
      mkDetalle, producto_str_of, fkProductoOk, facturaDescuento, dbShampoo, itemShampoo,
      actualizar_items_descuento, descuento_total_linea, descuento_por_unidad, min_def]
  have h := C9_producto_summary dbShampoo fecha0 uuidA facturaDescuento hs
  exact ⟨hs, h.2.1, h.2.2.2, by decide⟩

/-- C1 (code bug): on the spec's own scenario (3 × Shampoo at 500 with the
tier-100 per-unit discount) the screen computes and charges 1200 — the value
the claim's formula (sum of subtotals minus the discount, floored at zero)
also yields — but `registrar_venta` persists a header total of 1500, because
`pantalla_facturacion` writes only `descuento_total` back into the draft
items and never their discounted subtotals. -/
theorem C1_persisted_total_is_gross :
    total_mostrado facturaDescuento = 1200 ∧
    max ((facturaDescuento.items.map (fun i => i.subtotal)).sum -
      (facturaDescuento.items.map (fun i => i.descuento_total)).sum) 0 = 1200 ∧
    (registrar_venta dbShampoo none fecha0 uuidA facturaDescuento).2.1 = true ∧
    (registrar_venta dbShampoo none fecha0 uuidA facturaDescuento).1.ventas.map
      (fun v => v.total) = [(1500 : ℚ)] := by
  refine ⟨?_, ?_, ?_, ?_⟩ <;>
    norm_num [registrar_venta, insertVentaRow, insertDetalles, insertDetalleRow, mkVenta,
      mkDetalle, producto_str_of, fkProductoOk, facturaDescuento, dbShampoo, itemShampoo,
      actualizar_items_descuento, descuento_total_linea, descuento_por_unidad,
      total_mostrado, df_item_subtotal, subtotal_linea, min_def, max_def]
